import Mathlib

/-!
Verification of the spotify-song-logger ingestion pipeline.

Shallow embedding of the repository's play filter (src/lib/play-filter.js),
deduplication / state reconciliation (src/lib/deduplication.js), state
manager (src/lib/state-manager.js and the hybrid variant), the retry-queue
processor (src/api/retry-failed.js) and the log-spotify orchestration
handler.

Modelling conventions:
- Timestamps (ISO-8601 strings in the code, always converted with
  `new Date(s).getTime()` before use) are embedded directly as epoch
  milliseconds of type Int.  The conversion is injective and monotone on
  the valid timestamps the pipeline manipulates.
- JavaScript truthiness of a string field (e.g. a track id) is emptiness:
  the missing/undefined value and the empty string are both falsy and are
  both embedded as the empty string.
- A possibly-absent numeric field (duration_ms) is an Option Int; the
  source's coercion `x || 0` becomes `Option.getD 0`.
- Machine integers are exact here: all quantities are small epoch-millisecond
  values and counters, far below 2^53, so JavaScript number arithmetic on
  them is exact integer arithmetic.
-/

namespace SpotifyLogger

/-- Catalog data of a track, the `track` object of a recently-played item. -/
structure Track where
  id : String
  name : String
  duration_ms : Option Int
deriving Repr, DecidableEq

/-- One recently-played item from the streaming API (`track` plus `played_at`). -/
structure PlayEvent where
  track : Track
  played_at : Int
deriving Repr, DecidableEq

/-- The lastProcessed marker. Markers built by updateLastProcessed carry no
track name; markers derived from a sheet row carry one (findLastProcessedInSheet). -/
structure Marker where
  trackId : String
  trackName : Option String
  timestamp : Int
  playedAt : Int
deriving Repr, DecidableEq

/-- One entry of the persisted failedQueue (state-manager.js addToFailedQueue). -/
structure FailedEntry where
  trackId : String
  trackName : String
  playedAt : Int
  attemptCount : Nat
  lastAttempt : Int
  error : String
  partialData : PlayEvent
deriving Repr, DecidableEq

/-- The stats block of the persisted state. -/
structure Stats where
  lastRun : Option Int
  successCount : Nat
  failureCount : Nat
deriving Repr, DecidableEq

/-- The whole persisted state document (state-manager.js). -/
structure LoggerState where
  lastProcessed : Option Marker
  failedQueue : List FailedEntry
  stats : Stats
deriving Repr, DecidableEq

/-- DEFAULT_STATE from state-manager.js. -/
def DEFAULT_STATE : LoggerState :=
  { lastProcessed := none
    failedQueue := []
    stats := { lastRun := none, successCount := 0, failureCount := 0 } }

/-- MIN_PLAY_DURATION_MS from play-filter.js and deduplication.js. -/
def MIN_PLAY_DURATION_MS : Int := 30000

/-- isValidPlay from src/lib/play-filter.js lines 23-38: the estimated
duration is the catalog duration (`track.track?.duration_ms || 0`); a track
shorter than the minimum counts only if its duration is positive. -/
def isValidPlay (track : PlayEvent) (minDuration : Int := MIN_PLAY_DURATION_MS) : Bool :=
  let trackDuration : Int := track.track.duration_ms.getD 0
  if trackDuration < minDuration then
    decide (trackDuration > 0)
  else
    true

/-- isDuplicate from src/lib/play-filter.js lines 68-96: same track id as the
marker and absolute played_at difference below 30000 ms. A null marker, or a
marker with a falsy (empty) trackId, is never a duplicate. -/
def isDuplicate (track : PlayEvent) (lastProcessed : Option Marker) : Bool :=
  match lastProcessed with
  | none => false
  | some lp =>
    if lp.trackId = "" then
      false
    else if track.track.id = lp.trackId then
      decide ((track.played_at - lp.playedAt).natAbs < 30000)
    else
      false

/-- filterNewPlays from src/lib/play-filter.js lines 109-146: keep events that
are valid plays, not duplicates of the marker, and strictly newer than the
marker's playedAt (0 when there is no marker). -/
def filterNewPlays (recentTracks : List PlayEvent) (lastProcessedState : LoggerState) :
    List PlayEvent :=
  let lastProcessedTime : Int :=
    (lastProcessedState.lastProcessed.map (fun lp => lp.playedAt)).getD 0
  recentTracks.filter fun track =>
    isValidPlay track &&
    ! isDuplicate track lastProcessedState.lastProcessed &&
    decide (track.played_at > lastProcessedTime)

/-- Insertion step of the ascending-by-timestamp sort. -/
def insertByTime (t : PlayEvent) : List PlayEvent → List PlayEvent
  | [] => [t]
  | x :: xs => if t.played_at ≤ x.played_at then t :: x :: xs else x :: insertByTime t xs

/-- sortTracksByTimestamp from src/lib/play-filter.js lines 155-161: stable
sort ascending by played_at, embedded as an insertion sort. -/
def sortTracksByTimestamp (tracks : List PlayEvent) : List PlayEvent :=
  tracks.foldr insertByTime []

/-- getMostRecentTrack from src/lib/play-filter.js lines 168-178: reduce
keeping the element with the strictly larger played_at. -/
def getMostRecentTrack : List PlayEvent → Option PlayEvent
  | [] => none
  | t :: ts =>
    some (ts.foldl
      (fun latest current =>
        if current.played_at > latest.played_at then current else latest) t)

/-- createLastProcessedState from src/lib/play-filter.js lines 187-193 /
updateLastProcessed from src/lib/state-manager.js lines 128-139: the marker
records the track id, the wall clock (recordedAt) and the event's played_at. -/
def createLastProcessedState (track : PlayEvent) (now : Int) : Marker :=
  { trackId := track.track.id
    trackName := none
    timestamp := now
    playedAt := track.played_at }

/-- One row of the Listening Log sheet as the pipeline reads it: only the
columns at indices 0 (Timestamp), 1 (Track Name), 7 (Track ID) and 26 (Status)
are ever consulted. A missing or empty timestamp cell is none; a missing or
empty track id cell is the empty string (both are falsy in the source). -/
structure SheetRow where
  timestamp : Option Int
  trackName : String
  trackId : String
  status : String
deriving Repr, DecidableEq

/-- findLastProcessedInSheet from src/lib/deduplication.js lines 58-84: with
at most the header row present the result is null; otherwise the marker is
derived from the last row, and is null when that row lacks a track id or a
timestamp. The sheet timestamp doubles as the marker's playedAt. -/
def findLastProcessedInSheet (sheetRows : List SheetRow) : Option Marker :=
  if sheetRows.length ≤ 1 then
    none
  else
    match sheetRows.getLast? with
    | none => none
    | some lastRow =>
      if lastRow.trackId = "" then
        none
      else
        match lastRow.timestamp with
        | none => none
        | some ts =>
          some { trackId := lastRow.trackId, trackName := some lastRow.trackName,
                 timestamp := ts, playedAt := ts }

/-- reconcileState from src/lib/deduplication.js lines 97-141. The local
state may itself be null (the function is also callable that way), hence the
Option on both sides. Sheet empty: keep local. No local marker: take the
sheet marker, keeping the local queue and stats when present. Both markers
present: the sheet marker wins only when strictly newer. -/
def reconcileState (sheetData : List SheetRow) (localState : Option LoggerState) :
    Option LoggerState :=
  match findLastProcessedInSheet sheetData with
  | none => localState
  | some sheetLP =>
    match localState with
    | none =>
      some { lastProcessed := some sheetLP
             failedQueue := []
             stats := { lastRun := none, successCount := 0, failureCount := 0 } }
    | some ls =>
      match ls.lastProcessed with
      | none =>
        some { lastProcessed := some sheetLP
               failedQueue := ls.failedQueue
               stats := ls.stats }
      | some localLP =>
        if sheetLP.playedAt > localLP.playedAt then
          some { lastProcessed := some sheetLP
                 failedQueue := ls.failedQueue
                 stats := ls.stats }
        else
          some ls

/-- isTrackInSheet from src/lib/deduplication.js lines 149-180: linear scan
of the data rows (header skipped), a hit being same track id and absolute
timestamp difference below 30000 ms; rows lacking id or timestamp are
skipped. -/
def isTrackInSheet (track : PlayEvent) (sheetRows : List SheetRow) : Bool :=
  if sheetRows.length ≤ 1 then
    false
  else
    (sheetRows.drop 1).any fun row =>
      match row.timestamp with
      | none => false
      | some rowTime =>
        ! (row.trackId = "") &&
        row.trackId = track.track.id &&
        decide ((track.played_at - rowTime).natAbs < 30000)

/-- filterDuplicatesAgainstSheet from src/lib/deduplication.js lines 188-201. -/
def filterDuplicatesAgainstSheet (tracks : List PlayEvent) (sheetRows : List SheetRow) :
    List PlayEvent :=
  tracks.filter fun track => ! isTrackInSheet track sheetRows

/-- updateLastProcessed from src/lib/state-manager.js lines 128-139 (pure
read-modify-write content on the persisted document). -/
def updateLastProcessed (st : LoggerState) (track : PlayEvent) (now : Int) : LoggerState :=
  { st with lastProcessed := some (createLastProcessedState track now) }

/-- Queue rewrite step of addToFailedQueue: the first entry matching the new
entry's trackId and playedAt has its attemptCount incremented and its
lastAttempt and error replaced; with no match the new entry is pushed. -/
def bumpOrPush (queue : List FailedEntry) (entry : FailedEntry) : List FailedEntry :=
  match queue with
  | [] => [entry]
  | e :: rest =>
    if e.trackId = entry.trackId ∧ e.playedAt = entry.playedAt then
      { e with attemptCount := e.attemptCount + 1
               lastAttempt := entry.lastAttempt
               error := entry.error } :: rest
    else
      e :: bumpOrPush rest entry

/-- addToFailedQueue from src/lib/state-manager.js lines 147-178: a fresh
failure enters with attemptCount 1; a failure already queued under the same
(trackId, playedAt) has its attemptCount incremented in place. -/
def addToFailedQueue (st : LoggerState) (track : PlayEvent) (error : String) (now : Int) :
    LoggerState :=
  let failedEntry : FailedEntry :=
    { trackId := track.track.id
      trackName := track.track.name
      playedAt := track.played_at
      attemptCount := 1
      lastAttempt := now
      error := error
      partialData := track }
  { st with failedQueue := bumpOrPush st.failedQueue failedEntry }

/-- clearFromFailedQueue from src/lib/state-manager.js lines 195-208: drop
every queue entry matching both trackId and playedAt; the document is saved
only when something was actually removed. The Bool records whether a save
happened; the LoggerState is the document as persisted afterwards. -/
def clearFromFailedQueue (st : LoggerState) (trackId : String) (playedAt : Int) :
    LoggerState × Bool :=
  let newQueue := st.failedQueue.filter fun item =>
    ! (item.trackId = trackId ∧ item.playedAt = playedAt)
  if newQueue.length < st.failedQueue.length then
    ({ st with failedQueue := newQueue }, true)
  else
    (st, false)

/-- updateStats from src/lib/state-manager.js lines 216-225. -/
def updateStats (st : LoggerState) (successCount failureCount : Nat) (now : Int) :
    LoggerState :=
  { st with stats :=
      { lastRun := some now
        successCount := st.stats.successCount + successCount
        failureCount := st.stats.failureCount + failureCount } }

/-- Outcome of one read of a state file: absent (ENOENT), a read or parse
failure, or a successfully parsed document. -/
inductive FileRead where
  | absent : FileRead
  | corrupt : FileRead
  | good : LoggerState → FileRead
deriving Repr, DecidableEq

/-- loadStateLocal from src/unnamed/part_000 lines 98-124 (identical to
loadState in src/lib/state-manager.js lines 58-85): a missing main file
yields the default state; any other read or parse failure of the main file
falls back to the backup file; a backup that is itself absent, unreadable or
unparsable yields the default state. The function is total: no read outcome
makes it throw. -/
def loadStateLocal (mainFile backupFile : FileRead) : LoggerState :=
  match mainFile with
  | .good st => st
  | .absent => DEFAULT_STATE
  | .corrupt =>
    match backupFile with
    | .good st => st
    | _ => DEFAULT_STATE

/-- MAX_RETRY_ATTEMPTS from src/api/retry-failed.js line 27. -/
def MAX_RETRY_ATTEMPTS : Nat := 3

/-- MAX_ENTRIES_PER_RUN from src/api/retry-failed.js line 28. -/
def MAX_ENTRIES_PER_RUN : Nat := 50

/-- isReadyForRetry from src/api/retry-failed.js lines 69-86: fixed lookup by
attempt count; 1 hour after the first attempt, 24 hours after the second,
never otherwise. -/
def isReadyForRetry (failedEntry : FailedEntry) (now : Int) : Bool :=
  let timeSinceLastAttempt := now - failedEntry.lastAttempt
  match failedEntry.attemptCount with
  | 1 => decide (timeSinceLastAttempt ≥ 3600000)
  | 2 => decide (timeSinceLastAttempt ≥ 86400000)
  | _ => false

/-- Accumulated outcome of the retry-failed processing loop (the local
variables entriesToRemove, entriesToUpdate, maxedOutEntries of the handler,
plus the results counters). attempted records the entries for which
processFailedEntry was actually invoked. -/
structure LoopResult where
  toRemove : List (String × Int)
  toUpdate : List FailedEntry
  maxedOut : List FailedEntry
  attempted : List FailedEntry
  succeeded : Nat
  failed : Nat
  skipped : Nat
  maxedCount : Nat
deriving Repr, DecidableEq

/-- The empty loop outcome. -/
def emptyLoopResult : LoopResult :=
  { toRemove := [], toUpdate := [], maxedOut := [], attempted := []
    succeeded := 0, failed := 0, skipped := 0, maxedCount := 0 }

/-- The for-loop of the retry-failed handler, src/api/retry-failed.js lines
200-240. timeBudget is the number of loop iterations that run before the
45-second wall-clock deadline check becomes true (real time being monotone,
once the deadline passes the loop breaks, which the fuel models exactly).
retryOk tells whether processFailedEntry succeeds for an entry; retryErr is
the error message it reports on failure. Entries at or above the maximum
attempt count are recorded as maxed out and are not retried; entries not yet
due are skipped; a successful retry is marked for removal; a failed retry is
marked for update with an incremented attemptCount and a fresh lastAttempt. -/
def retryLoop (entries : List FailedEntry) (timeBudget : Nat) (now : Int)
    (retryOk : FailedEntry → Bool) (retryErr : FailedEntry → String) : LoopResult :=
  match entries, timeBudget with
  | [], _ => emptyLoopResult
  | _ :: _, 0 => emptyLoopResult
  | entry :: rest, b + 1 =>
    if entry.attemptCount ≥ MAX_RETRY_ATTEMPTS then
      let r := retryLoop rest b now retryOk retryErr
      { r with maxedOut := entry :: r.maxedOut, maxedCount := r.maxedCount + 1 }
    else if ! isReadyForRetry entry now then
      let r := retryLoop rest b now retryOk retryErr
      { r with skipped := r.skipped + 1 }
    else if retryOk entry then
      let r := retryLoop rest b now retryOk retryErr
      { r with toRemove := (entry.trackId, entry.playedAt) :: r.toRemove
               attempted := entry :: r.attempted
               succeeded := r.succeeded + 1 }
    else
      let r := retryLoop rest b now retryOk retryErr
      { r with toUpdate := { entry with attemptCount := entry.attemptCount + 1
                                        lastAttempt := now
                                        error := retryErr entry } :: r.toUpdate
               attempted := entry :: r.attempted
               failed := r.failed + 1 }

/-- The findIndex-and-assign rewrite of src/api/retry-failed.js lines
250-257: replace the first queue entry matching the updated entry's trackId
and playedAt. -/
def updateEntryInQueue (queue : List FailedEntry) (u : FailedEntry) : List FailedEntry :=
  match queue with
  | [] => []
  | e :: rest =>
    if e.trackId = u.trackId ∧ e.playedAt = u.playedAt then
      u :: rest
    else
      e :: updateEntryInQueue rest u

/-- The retry-failed handler, src/api/retry-failed.js lines 158-303,
restricted to its persisted-state content. An empty queue returns at once
with no write. Otherwise the first 50 queue entries are looped over, then
successful retries are cleared from the queue, failed ones rewritten with
their new attempt counts, maxed-out ones removed, and the stats updated. -/
def retryFailedHandler (st : LoggerState) (timeBudget : Nat) (now : Int)
    (retryOk : FailedEntry → Bool) (retryErr : FailedEntry → String) :
    LoggerState × LoopResult :=
  if st.failedQueue = [] then
    (st, emptyLoopResult)
  else
    let r := retryLoop (st.failedQueue.take MAX_ENTRIES_PER_RUN) timeBudget now retryOk retryErr
    let s1 := r.toRemove.foldl (fun s p => (clearFromFailedQueue s p.1 p.2).1) st
    let s2 := { s1 with failedQueue := r.toUpdate.foldl updateEntryInQueue s1.failedQueue }
    let s3 := { s2 with failedQueue :=
      (r.maxedOut.foldl
        (fun q e => q.filter fun x => ! (x.trackId = e.trackId ∧ x.playedAt = e.playedAt))
        s2.failedQueue) }
    (updateStats s3 r.succeeded r.failed now, r)

/-- States of the persisted document reachable by the pipeline's mutating
operations named by the retry-queue invariant: queueing a failed track during
a logging run, and a retry-queue processing pass. -/
inductive Reachable : LoggerState → Prop where
  | init : Reachable DEFAULT_STATE
  | addFailed (st : LoggerState) (track : PlayEvent) (error : String) (now : Int) :
      Reachable st → Reachable (addToFailedQueue st track error now)
  | retryRun (st : LoggerState) (timeBudget : Nat) (now : Int)
      (retryOk : FailedEntry → Bool) (retryErr : FailedEntry → String) :
      Reachable st → Reachable (retryFailedHandler st timeBudget now retryOk retryErr).1

/-- One persisted-state mutation performed by the log-spotify handler. -/
inductive Effect where
  | updatedLastProcessed : Marker → Effect
  | addedToFailedQueue : String → Int → Effect
  | updatedStats : Nat → Nat → Effect
deriving Repr, DecidableEq

/-- The log-spotify handler, src/unnamed/part_014 lines 86-357, restricted to
its persisted-state content. tracks is the recently-played response; enrichOk
tells whether the per-track enrichment calls succeed, enrichErr the message
of a failure; appendOk is whether the batch appendRows call succeeds. The
early returns (no tracks, nothing filtered, nothing unique) persist nothing.
When appendRows throws, the catch path persists nothing either: the reconciled
in-memory state is never saved, and updateLastProcessed, addToFailedQueue and
updateStats all sit after the append. On success the marker is set from the
most recent unique track, each enrichment failure is queued, and the stats
are bumped. -/
def runLogSpotify (st : LoggerState) (tracks : List PlayEvent) (sheetRows : List SheetRow)
    (enrichOk : PlayEvent → Bool) (enrichErr : PlayEvent → String)
    (appendOk : Bool) (now : Int) : LoggerState × List Effect :=
  if tracks = [] then
    (st, [])
  else
    let filteredTracks := filterNewPlays tracks st
    let sortedTracks := sortTracksByTimestamp filteredTracks
    if filteredTracks = [] then
      (st, [])
    else
      let _reconciled := reconcileState sheetRows (some st)
      let uniqueTracks := filterDuplicatesAgainstSheet sortedTracks sheetRows
      if uniqueTracks = [] then
        (st, [])
      else
        let failedTracks := uniqueTracks.filter fun t => ! enrichOk t
        let successCount := (uniqueTracks.filter fun t => enrichOk t).length
        let failureCount := failedTracks.length
        if ! appendOk then
          (st, [])
        else
          let step9 :=
            match getMostRecentTrack uniqueTracks with
            | some mostRecent =>
              (updateLastProcessed st mostRecent now,
               [Effect.updatedLastProcessed (createLastProcessedState mostRecent now)])
            | none => (st, ([] : List Effect))
          let s2 := failedTracks.foldl (fun s t => addToFailedQueue s t (enrichErr t) now) step9.1
          let queueEffects := failedTracks.map fun t =>
            Effect.addedToFailedQueue t.track.id t.played_at
          let s3 := updateStats s2 successCount failureCount now
          (s3, step9.2 ++ queueEffects ++ [Effect.updatedStats successCount failureCount])

/-!  Helper lemmas shared by the claim theorems.  -/

/-- Membership in the play filter output, unfolded. -/
theorem mem_filterNewPlays {tracks : List PlayEvent} {st : LoggerState} {t : PlayEvent} :
    t ∈ filterNewPlays tracks st ↔
      t ∈ tracks ∧ isValidPlay t = true ∧ isDuplicate t st.lastProcessed = false ∧
        (st.lastProcessed.map (fun lp => lp.playedAt)).getD 0 < t.played_at := by
  unfold filterNewPlays
  simp [List.mem_filter, and_assoc]

/-- Insertion preserves membership. -/
theorem mem_insertByTime {t a : PlayEvent} {l : List PlayEvent} :
    a ∈ insertByTime t l ↔ a = t ∨ a ∈ l := by
  induction l with
  | nil => simp [insertByTime]
  | cons x xs ih =>
    unfold insertByTime
    by_cases h : t.played_at ≤ x.played_at
    · simp [h]
    · simp only [if_neg h, List.mem_cons, ih]
      tauto

/-- The timestamp sort is a pure reordering: membership is unchanged. -/
theorem mem_sortTracksByTimestamp {a : PlayEvent} {l : List PlayEvent} :
    a ∈ sortTracksByTimestamp l ↔ a ∈ l := by
  induction l with
  | nil => simp [sortTracksByTimestamp]
  | cons x xs ih =>
    unfold sortTracksByTimestamp at ih ⊢
    simp only [List.foldr_cons, mem_insertByTime, ih, List.mem_cons]

/-- The reduce of getMostRecentTrack only ever returns the accumulator or a
list element. -/
theorem foldl_latest_mem (l : List PlayEvent) (acc : PlayEvent) :
    (l.foldl
        (fun latest current =>
          if current.played_at > latest.played_at then current else latest) acc) = acc ∨
    (l.foldl
        (fun latest current =>
          if current.played_at > latest.played_at then current else latest) acc) ∈ l := by
  induction l generalizing acc with
  | nil => exact Or.inl rfl
  | cons x xs ih =>
    simp only [List.foldl_cons]
    by_cases h : x.played_at > acc.played_at
    · rcases ih (if x.played_at > acc.played_at then x else acc) with h1 | h1
      · rw [h1]
        simp [h]
      · exact Or.inr (List.mem_cons_of_mem _ h1)
    · rcases ih (if x.played_at > acc.played_at then x else acc) with h1 | h1
      · rw [h1]
        simp [h]
      · exact Or.inr (List.mem_cons_of_mem _ h1)

/-- getMostRecentTrack returns an element of its input. -/
theorem getMostRecentTrack_mem {l : List PlayEvent} {t : PlayEvent}
    (h : getMostRecentTrack l = some t) : t ∈ l := by
  cases l with
  | nil => simp [getMostRecentTrack] at h
  | cons x xs =>
    simp only [getMostRecentTrack, Option.some.injEq] at h
    rcases foldl_latest_mem xs x with h1 | h1
    · rw [h1] at h
      subst h
      exact List.mem_cons_self _ _
    · rw [h] at h1
      exact List.mem_cons_of_mem _ h1

/-- addToFailedQueue never touches the lastProcessed marker. -/
theorem addToFailedQueue_lastProcessed (st : LoggerState) (track : PlayEvent)
    (error : String) (now : Int) :
    (addToFailedQueue st track error now).lastProcessed = st.lastProcessed := rfl

/-- Folding addToFailedQueue over a list of failures never touches the
lastProcessed marker. -/
theorem foldl_addToFailedQueue_lastProcessed (l : List PlayEvent) (st : LoggerState)
    (enrichErr : PlayEvent → String) (now : Int) :
    (l.foldl (fun s t => addToFailedQueue s t (enrichErr t) now) st).lastProcessed =
      st.lastProcessed := by
  induction l generalizing st with
  | nil => rfl
  | cons x xs ih => simpa using ih (addToFailedQueue st x (enrichErr x) now)

/-- Every entry the retry loop marks as maxed out is at or above the maximum
attempt count. -/
theorem retryLoop_maxedOut_ge {entries : List FailedEntry} {b : Nat} {now : Int}
    {retryOk : FailedEntry → Bool} {retryErr : FailedEntry → String} {e : FailedEntry}
    (h : e ∈ (retryLoop entries b now retryOk retryErr).maxedOut) :
    MAX_RETRY_ATTEMPTS ≤ e.attemptCount := by
  induction entries generalizing b with
  | nil =>
    simp [retryLoop, emptyLoopResult] at h
  | cons x xs ih =>
    cases b with
    | zero => simp [retryLoop, emptyLoopResult] at h
    | succ b =>
      unfold retryLoop at h
      by_cases hmax : x.attemptCount ≥ MAX_RETRY_ATTEMPTS
      · rw [if_pos hmax] at h
        rcases List.mem_cons.mp h with h | h
        · subst h; exact hmax
        · exact ih h
      · rw [if_neg hmax] at h
        by_cases hready : isReadyForRetry x now
        · simp only [hready, Bool.not_true, if_neg] at h
          by_cases hok : retryOk x = true
          · rw [if_pos hok] at h
            exact ih h
          · rw [if_neg hok] at h
            exact ih h
        · simp only [Bool.not_eq_true] at hready
          simp only [hready, Bool.not_false, if_pos] at h
          exact ih h

/-- Every entry the retry loop actually hands to processFailedEntry is below
the maximum attempt count. -/
theorem retryLoop_attempted_lt {entries : List FailedEntry} {b : Nat} {now : Int}
    {retryOk : FailedEntry → Bool} {retryErr : FailedEntry → String} {e : FailedEntry}
    (h : e ∈ (retryLoop entries b now retryOk retryErr).attempted) :
    e.attemptCount < MAX_RETRY_ATTEMPTS := by
  induction entries generalizing b with
  | nil =>
    simp [retryLoop, emptyLoopResult] at h
  | cons x xs ih =>
    cases b with
    | zero => simp [retryLoop, emptyLoopResult] at h
    | succ b =>
      unfold retryLoop at h
      by_cases hmax : x.attemptCount ≥ MAX_RETRY_ATTEMPTS
      · rw [if_pos hmax] at h
        exact ih h
      · rw [if_neg hmax] at h
        by_cases hready : isReadyForRetry x now
        · simp only [hready, Bool.not_true, if_neg] at h
          by_cases hok : retryOk x = true
          · rw [if_pos hok] at h
            rcases List.mem_cons.mp h with h | h
            · subst h; exact Nat.lt_of_not_le hmax
            · exact ih h
          · rw [if_neg hok] at h
            rcases List.mem_cons.mp h with h | h
            · subst h; exact Nat.lt_of_not_le hmax
            · exact ih h
        · simp only [Bool.not_eq_true] at hready
          simp only [hready, Bool.not_false, if_pos] at h
          exact ih h

/-- Every rewritten entry the retry loop schedules keeps its attempt count at
or below the maximum: the count only moves from below the maximum to one
more. -/
theorem retryLoop_toUpdate_le {entries : List FailedEntry} {b : Nat} {now : Int}
    {retryOk : FailedEntry → Bool} {retryErr : FailedEntry → String} {u : FailedEntry}
    (h : u ∈ (retryLoop entries b now retryOk retryErr).toUpdate) :
    u.attemptCount ≤ MAX_RETRY_ATTEMPTS := by
  induction entries generalizing b with
  | nil =>
    simp [retryLoop, emptyLoopResult] at h
  | cons x xs ih =>
    cases b with
    | zero => simp [retryLoop, emptyLoopResult] at h
    | succ b =>
      unfold retryLoop at h
      by_cases hmax : x.attemptCount ≥ MAX_RETRY_ATTEMPTS
      · rw [if_pos hmax] at h
        exact ih h
      · rw [if_neg hmax] at h
        by_cases hready : isReadyForRetry x now
        · simp only [hready, Bool.not_true, if_neg] at h
          by_cases hok : retryOk x = true
          · rw [if_pos hok] at h
            exact ih h
          · rw [if_neg hok] at h
            rcases List.mem_cons.mp h with h | h
            · subst h
              exact Nat.succ_le_of_lt (Nat.lt_of_not_le hmax)
            · exact ih h
        · simp only [Bool.not_eq_true] at hready
          simp only [hready, Bool.not_false, if_pos] at h
          exact ih h

/-- The folded maxed-out filters only drop elements. -/
theorem mem_of_mem_foldl_maxedFilter {maxed : List FailedEntry} {q : List FailedEntry}
    {x : FailedEntry}
    (h : x ∈ maxed.foldl
        (fun q e => q.filter fun y => ! (y.trackId = e.trackId ∧ y.playedAt = e.playedAt)) q) :
    x ∈ q := by
  induction maxed generalizing q with
  | nil => simpa using h
  | cons m ms ih =>
    simp only [List.foldl_cons] at h
    exact List.mem_filter.mp (ih h) |>.1

/-- After folding the maxed-out filters, no surviving element matches any of
the maxed-out keys. -/
theorem foldl_maxedFilter_clears {maxed : List FailedEntry} {q : List FailedEntry}
    {x e : FailedEntry} (he : e ∈ maxed)
    (h : x ∈ maxed.foldl
        (fun q e => q.filter fun y => ! (y.trackId = e.trackId ∧ y.playedAt = e.playedAt)) q) :
    ¬(x.trackId = e.trackId ∧ x.playedAt = e.playedAt) := by
  induction maxed generalizing q with
  | nil => simp at he
  | cons m ms ih =>
    simp only [List.foldl_cons] at h
    rcases List.mem_cons.mp he with he | he
    · subst he
      have hx := mem_of_mem_foldl_maxedFilter h
      have h2 := List.mem_filter.mp hx |>.2
      intro hc
      simp [hc.1, hc.2] at h2
    · exact ih he h

/-- Unfolding equation for isDuplicate on a present marker. -/
theorem isDuplicate_some (t : PlayEvent) (lp : Marker) :
    isDuplicate t (some lp) =
      (if lp.trackId = "" then false
       else if t.track.id = lp.trackId then
         decide ((t.played_at - lp.playedAt).natAbs < 30000)
       else false) := rfl

/-!  Claim theorems.  -/

/-- C9: every event whose track catalog duration duration_ms is less than or
equal to zero (or absent, which the source coerces to 0) is excluded from the
result of filterNewPlays. -/
theorem filterNewPlays_excludes_nonpositive_duration
    (tracks : List PlayEvent) (st : LoggerState) (t : PlayEvent)
    (hdur : t.track.duration_ms.getD 0 ≤ 0) :
    t ∉ filterNewPlays tracks st := by
  intro hmem
  rcases mem_filterNewPlays.mp hmem with ⟨-, hvalid, -, -⟩
  unfold isValidPlay at hvalid
  rw [if_pos (lt_of_le_of_lt hdur (by norm_num [MIN_PLAY_DURATION_MS]))] at hvalid
  exact absurd (of_decide_eq_true hvalid) (not_lt.mpr hdur)

/-- Witness for C9 at a concrete zero-duration event. -/
theorem filterNewPlays_excludes_nonpositive_duration_witness :
    ({ track := { id := "a", name := "x", duration_ms := some 0 }, played_at := 5 } : PlayEvent) ∉
      filterNewPlays
        [{ track := { id := "a", name := "x", duration_ms := some 0 }, played_at := 5 }]
        DEFAULT_STATE :=
  filterNewPlays_excludes_nonpositive_duration _ _ _ (by decide)

/-- C8: a queued failed item is ready for retry exactly when the elapsed time
since its lastAttempt reaches the fixed lookup by attemptCount: 1 hour for
attemptCount 1, 24 hours for attemptCount 2, never otherwise. -/
theorem isReadyForRetry_schedule (e : FailedEntry) (now : Int) :
    isReadyForRetry e now = true ↔
      ((e.attemptCount = 1 ∧ 3600000 ≤ now - e.lastAttempt) ∨
       (e.attemptCount = 2 ∧ 86400000 ≤ now - e.lastAttempt)) := by
  unfold isReadyForRetry
  rcases e with ⟨tid, tn, pa, ac, la, er, pd⟩
  simp only
  match ac with
  | 0 => simp
  | 1 => simp [ge_iff_le]
  | 2 => simp [ge_iff_le]
  | (n + 3) => simp

/-- C7: loadState of the local backend is total over read outcomes: a missing
main file yields the default document, any other read or parse failure of
the main file falls back to the backup copy, and the default document comes
back when the backup is absent, unreadable or unparsable as well. -/
theorem loadStateLocal_fallback (backupFile : FileRead) (st : LoggerState) :
    loadStateLocal .absent backupFile = DEFAULT_STATE ∧
    loadStateLocal .corrupt (.good st) = st ∧
    loadStateLocal .corrupt .absent = DEFAULT_STATE ∧
    loadStateLocal .corrupt .corrupt = DEFAULT_STATE ∧
    loadStateLocal (.good st) backupFile = st := by
  cases backupFile <;> exact ⟨rfl, rfl, rfl, rfl, rfl⟩

/-- C10: clearFromFailedQueue removes exactly the queue entries matching both
trackId and playedAt, leaves lastProcessed and stats untouched, and does not
rewrite the persisted document when nothing matched. -/
theorem clearFromFailedQueue_frame (st : LoggerState) (trackId : String) (playedAt : Int) :
    (clearFromFailedQueue st trackId playedAt).1.lastProcessed = st.lastProcessed ∧
    (clearFromFailedQueue st trackId playedAt).1.stats = st.stats ∧
    (clearFromFailedQueue st trackId playedAt).1.failedQueue =
      st.failedQueue.filter
        (fun item => ! (item.trackId = trackId ∧ item.playedAt = playedAt)) ∧
    ((∀ item ∈ st.failedQueue, ¬(item.trackId = trackId ∧ item.playedAt = playedAt)) →
      (clearFromFailedQueue st trackId playedAt).2 = false) := by
  simp only [clearFromFailedQueue]
  by_cases h : (st.failedQueue.filter
      (fun item => ! (item.trackId = trackId ∧ item.playedAt = playedAt))).length <
      st.failedQueue.length
  · rw [if_pos h]
    refine ⟨rfl, rfl, rfl, ?_⟩
    intro hall
    have hself : st.failedQueue.filter
        (fun item => ! (item.trackId = trackId ∧ item.playedAt = playedAt)) =
        st.failedQueue := by
      apply List.filter_eq_self.mpr
      intro a ha
      simp only [Bool.not_eq_true', decide_eq_false_iff_not]
      exact hall a ha
    rw [hself] at h
    exact absurd h (lt_irrefl _)
  · rw [if_neg h]
    have hle := List.length_filter_le
      (fun item => ! (item.trackId = trackId ∧ item.playedAt = playedAt)) st.failedQueue
    have heq : (st.failedQueue.filter
        (fun item => ! (item.trackId = trackId ∧ item.playedAt = playedAt))).length =
        st.failedQueue.length :=
      le_antisymm hle (Nat.le_of_not_lt h)
    have hself := (List.filter_sublist st.failedQueue).eq_of_length heq
    exact ⟨rfl, rfl, hself.symm, fun _ => rfl⟩

/-- Witness for C10: a queue whose single entry matches neither key is not
rewritten. -/
theorem clearFromFailedQueue_frame_witness :
    (clearFromFailedQueue
      { lastProcessed := none
        failedQueue := [{ trackId := "a", trackName := "n", playedAt := 1, attemptCount := 1,
                          lastAttempt := 0, error := "e",
                          partialData := { track := { id := "a", name := "n",
                                                      duration_ms := some 1 },
                                           played_at := 1 } }]
        stats := { lastRun := none, successCount := 0, failureCount := 0 } }
      "b" 7).2 = false :=
  (clearFromFailedQueue_frame _ "b" 7).2.2.2 (by decide)

/-- C4: reconcileState is idempotent: reapplying it to its own output with
the same sheet data returns that output unchanged. -/
theorem reconcileState_idempotent (sheetData : List SheetRow) (localState : Option LoggerState) :
    reconcileState sheetData (reconcileState sheetData localState) =
      reconcileState sheetData localState := by
  unfold reconcileState
  cases h : findLastProcessedInSheet sheetData with
  | none => rfl
  | some sheetLP =>
    cases localState with
    | none => simp [lt_irrefl]
    | some ls =>
      cases hlp : ls.lastProcessed with
      | none => simp [hlp, lt_irrefl]
      | some localLP =>
        by_cases hgt : sheetLP.playedAt > localLP.playedAt
        · simp [hlp, hgt, lt_irrefl]
        · simp [hlp, hgt]

/-- C5: when the sheet yields a marker from its final data row and the local
state carries a marker, the strictly newer timestamp wins: the sheet marker
replaces lastProcessed (keeping the local failedQueue and stats) exactly when
it is newer, and the local state is returned unchanged otherwise. -/
theorem reconcileState_newer_wins
    (sheetData : List SheetRow) (ls : LoggerState) (sheetLP localLP : Marker)
    (hs : findLastProcessedInSheet sheetData = some sheetLP)
    (hl : ls.lastProcessed = some localLP) :
    reconcileState sheetData (some ls) =
      (if localLP.playedAt < sheetLP.playedAt then
        some { lastProcessed := some sheetLP, failedQueue := ls.failedQueue, stats := ls.stats }
      else
        some ls) := by
  unfold reconcileState
  rw [hs]
  simp [hl, gt_iff_lt]

/-- Witness for C5: a two-row sheet (header plus one data row) whose marker
is newer than the local one makes the sheet marker win. -/
theorem reconcileState_newer_wins_witness :
    reconcileState
      [{ timestamp := none, trackName := "", trackId := "", status := "" },
       { timestamp := some 5000000, trackName := "Song", trackId := "t9", status := "COMPLETED" }]
      (some { lastProcessed := some { trackId := "t1", trackName := none, timestamp := 0,
                                      playedAt := 1040000 }
              failedQueue := []
              stats := { lastRun := none, successCount := 0, failureCount := 0 } }) =
      some { lastProcessed := some { trackId := "t9", trackName := some "Song",
                                     timestamp := 5000000, playedAt := 5000000 }
             failedQueue := []
             stats := { lastRun := none, successCount := 0, failureCount := 0 } } := by
  rw [reconcileState_newer_wins _ _
    { trackId := "t9", trackName := some "Song", timestamp := 5000000, playedAt := 5000000 }
    { trackId := "t1", trackName := none, timestamp := 0, playedAt := 1040000 }
    (by decide) rfl]
  decide

/-- Counterexample to C1 as stated: an event with the marker's track id whose
played_at is 40000 ms OLDER than the marker (absolute difference 40000 ms,
at least 30000) and a valid positive duration is nevertheless dropped by
filterNewPlays, because the already-processed check rejects every event not
strictly newer than the marker. -/
theorem filterNewPlays_retention_fails_for_older_event :
    (({ track := { id := "t1", name := "s", duration_ms := some 200000 },
        played_at := 1000000 } : PlayEvent).track.id =
      ({ trackId := "t1", trackName := none, timestamp := 0, playedAt := 1040000 } :
        Marker).trackId) ∧
    30000 ≤ (({ track := { id := "t1", name := "s", duration_ms := some 200000 },
                played_at := 1000000 } : PlayEvent).played_at - (1040000 : Int)).natAbs ∧
    ({ track := { id := "t1", name := "s", duration_ms := some 200000 },
       played_at := 1000000 } : PlayEvent) ∉
      filterNewPlays
        [{ track := { id := "t1", name := "s", duration_ms := some 200000 },
           played_at := 1000000 }]
        { lastProcessed := some { trackId := "t1", trackName := none, timestamp := 0,
                                  playedAt := 1040000 }
          failedQueue := []
          stats := { lastRun := none, successCount := 0, failureCount := 0 } } := by
  decide

/-- C1 (amended): for a state whose lastProcessed marker carries a nonempty
track id, filterNewPlays excludes every event with that track id whose
played_at differs from the marker's playedAt by less than 30000 ms in
absolute value; and it retains every listed event with that track id and a
positive catalog duration whose played_at is NEWER than the marker's playedAt
by at least 30000 ms. -/
theorem filterNewPlays_duplicate_window
    (tracks : List PlayEvent) (st : LoggerState) (m : Marker) (t : PlayEvent)
    (hm : st.lastProcessed = some m) (hid : ¬ m.trackId = "") :
    (t.track.id = m.trackId → (t.played_at - m.playedAt).natAbs < 30000 →
      t ∉ filterNewPlays tracks st) ∧
    (t ∈ tracks → t.track.id = m.trackId → 0 < t.track.duration_ms.getD 0 →
      m.playedAt + 30000 ≤ t.played_at → t ∈ filterNewPlays tracks st) := by
  constructor
  · intro heq hdiff hmem
    rcases mem_filterNewPlays.mp hmem with ⟨-, -, hdup, -⟩
    rw [hm, isDuplicate_some, if_neg hid, heq, if_pos rfl] at hdup
    simp [hdiff] at hdup
  · intro hmem heq hdur hnew
    apply mem_filterNewPlays.mpr
    refine ⟨hmem, ?_, ?_, ?_⟩
    · simp only [isValidPlay]
      split
      · simpa using hdur
      · rfl
    · rw [hm, isDuplicate_some, if_neg hid, heq, if_pos rfl]
      simp only [decide_eq_false_iff_not, not_lt]
      omega
    · rw [hm]
      show m.playedAt < t.played_at
      omega

/-- Witness for C1 (amended): a repeat play 30100 ms after the marker is
retained. -/
theorem filterNewPlays_duplicate_window_witness :
    ({ track := { id := "t1", name := "s", duration_ms := some 200000 },
       played_at := 1070100 } : PlayEvent) ∈
      filterNewPlays
        [{ track := { id := "t1", name := "s", duration_ms := some 200000 },
           played_at := 1070100 }]
        { lastProcessed := some { trackId := "t1", trackName := none, timestamp := 0,
                                  playedAt := 1040000 }
          failedQueue := []
          stats := { lastRun := none, successCount := 0, failureCount := 0 } } :=
  (filterNewPlays_duplicate_window _ _ _ _ rfl (by decide)).2
    (List.mem_singleton.mpr rfl) rfl (by decide) (by decide)

/-- C6: when the batch append to the spreadsheet throws, the run exits through
the catch path having persisted nothing: the state document is exactly the
one loaded at the start (lastProcessed and stats untouched) and no state
mutation — in particular no addToFailedQueue for that run's enrichment
failures — was performed. -/
theorem runLogSpotify_append_failure
    (st : LoggerState) (tracks : List PlayEvent) (sheetRows : List SheetRow)
    (enrichOk : PlayEvent → Bool) (enrichErr : PlayEvent → String) (now : Int) :
    runLogSpotify st tracks sheetRows enrichOk enrichErr false now = (st, []) := by
  simp [runLogSpotify]

/-- updateStats never touches the lastProcessed marker. -/
theorem updateStats_lastProcessed (st : LoggerState) (s f : Nat) (now : Int) :
    (updateStats st s f now).lastProcessed = st.lastProcessed := rfl

/-- C3: the persisted lastProcessed.playedAt is monotonically non-decreasing
across runs of the logging pipeline: whatever marker a run leaves behind has
a playedAt at least the one persisted before the run, because every candidate
for the new marker passed the strictly-newer-than-the-old-marker filter. -/
theorem lastProcessed_monotone
    (st : LoggerState) (tracks : List PlayEvent) (sheetRows : List SheetRow)
    (enrichOk : PlayEvent → Bool) (enrichErr : PlayEvent → String)
    (appendOk : Bool) (now : Int) (m m2 : Marker)
    (hm : st.lastProcessed = some m)
    (hm2 : (runLogSpotify st tracks sheetRows enrichOk enrichErr appendOk now).1.lastProcessed =
      some m2) :
    m.playedAt ≤ m2.playedAt := by
  have base : st.lastProcessed = some m2 → m.playedAt ≤ m2.playedAt := by
    intro h
    rw [hm] at h
    injection h with h
    rw [h]
  simp only [runLogSpotify] at hm2
  split at hm2
  · exact base hm2
  · split at hm2
    · exact base hm2
    · split at hm2
      · exact base hm2
      · split at hm2
        · exact base hm2
        · split at hm2
          · rename_i mostRecent hmr
            rw [updateStats_lastProcessed, foldl_addToFailedQueue_lastProcessed] at hm2
            have hm2eq : createLastProcessedState mostRecent now = m2 := by
              injection hm2
            have hmem : mostRecent ∈
                filterDuplicatesAgainstSheet
                  (sortTracksByTimestamp (filterNewPlays tracks st)) sheetRows :=
              getMostRecentTrack_mem hmr
            have hmem2 : mostRecent ∈ filterNewPlays tracks st := by
              have := List.mem_filter.mp hmem
              exact mem_sortTracksByTimestamp.mp this.1
            have hlt := (mem_filterNewPlays.mp hmem2).2.2.2
            rw [hm] at hlt
            have hpa : m2.playedAt = mostRecent.played_at := by
              rw [← hm2eq]
              rfl
            rw [hpa]
            exact le_of_lt hlt
          · rw [updateStats_lastProcessed, foldl_addToFailedQueue_lastProcessed] at hm2
            exact base hm2

/-- Witness for C3: a concrete successful run moves the marker from playedAt
1000 to playedAt 100000. -/
theorem lastProcessed_monotone_witness : (1000 : Int) ≤ (100000 : Int) :=
  lastProcessed_monotone
    { lastProcessed := some { trackId := "t0", trackName := none, timestamp := 0,
                              playedAt := 1000 }
      failedQueue := []
      stats := { lastRun := none, successCount := 0, failureCount := 0 } }
    [{ track := { id := "t7", name := "d", duration_ms := some 200000 },
       played_at := 100000 }]
    [] (fun _ => true) (fun _ => "") true 777
    { trackId := "t0", trackName := none, timestamp := 0, playedAt := 1000 }
    { trackId := "t7", trackName := none, timestamp := 777, playedAt := 100000 }
    rfl (by decide)

/-- A concrete play event for the retry-queue counterexample. -/
def cexTrack : PlayEvent :=
  { track := { id := "t1", name := "s", duration_ms := some 1 }, played_at := 0 }

/-- Counterexample to C2 as stated: queueing the same failed track four times
across logging runs (addToFailedQueue increments the existing entry's
attemptCount without any cap) reaches a persisted state whose failedQueue
holds an entry with attemptCount 4, exceeding the configured maximum of 3. -/
theorem failedQueue_attemptCount_can_exceed_max :
    ∃ st, Reachable st ∧ ∃ e ∈ st.failedQueue, MAX_RETRY_ATTEMPTS < e.attemptCount := by
  refine ⟨addToFailedQueue (addToFailedQueue (addToFailedQueue
    (addToFailedQueue DEFAULT_STATE cexTrack "e" 0) cexTrack "e" 0) cexTrack "e" 0)
    cexTrack "e" 0, ?_, ?_⟩
  · exact Reachable.addFailed _ _ _ _ (Reachable.addFailed _ _ _ _
      (Reachable.addFailed _ _ _ _ (Reachable.addFailed _ _ _ _ Reachable.init)))
  · refine ⟨{ trackId := "t1", trackName := "s", playedAt := 0, attemptCount := 4,
              lastAttempt := 0, error := "e", partialData := cexTrack }, ?_, ?_⟩
    · decide
    · decide

/-- C2 (amended): a retry-processing pass never writes an attempt count above
the maximum (every rewritten entry stays at most 3), and every maxed-out
entry it evaluates — within the 50-entry batch and the execution time budget
— is dropped from the persisted queue on that very pass without
processFailedEntry being invoked for it. (addToFailedQueue, by contrast, can
push an existing entry's attemptCount past the maximum, see the
counterexample.) -/
theorem retryFailedHandler_bounds
    (st : LoggerState) (timeBudget : Nat) (now : Int)
    (retryOk : FailedEntry → Bool) (retryErr : FailedEntry → String) :
    (∀ u ∈ (retryFailedHandler st timeBudget now retryOk retryErr).2.toUpdate,
      u.attemptCount ≤ MAX_RETRY_ATTEMPTS) ∧
    (∀ e ∈ (retryFailedHandler st timeBudget now retryOk retryErr).2.maxedOut,
      MAX_RETRY_ATTEMPTS ≤ e.attemptCount ∧
      e ∉ (retryFailedHandler st timeBudget now retryOk retryErr).2.attempted ∧
      ∀ x ∈ (retryFailedHandler st timeBudget now retryOk retryErr).1.failedQueue,
        ¬(x.trackId = e.trackId ∧ x.playedAt = e.playedAt)) := by
  by_cases hq : st.failedQueue = []
  · simp [retryFailedHandler, hq, emptyLoopResult]
  · simp only [retryFailedHandler, if_neg hq]
    constructor
    · intro u hu
      exact retryLoop_toUpdate_le hu
    · intro e he
      refine ⟨retryLoop_maxedOut_ge he, ?_, ?_⟩
      · intro hc
        have h1 := retryLoop_attempted_lt hc
        have h2 := retryLoop_maxedOut_ge he
        omega
      · intro x hx
        exact foldl_maxedFilter_clears he hx

/-- A concrete maxed-out queue entry for the C2 witness. -/
def cexMaxEntry : FailedEntry :=
  { trackId := "t1", trackName := "s", playedAt := 0, attemptCount := 3,
    lastAttempt := 0, error := "e", partialData := cexTrack }

/-- Witness for C2 (amended): a pass over a queue holding one entry at the
maximum attempt count never invokes a retry for it. -/
theorem retryFailedHandler_bounds_witness :
    cexMaxEntry ∉ (retryFailedHandler
      { lastProcessed := none
        failedQueue := [cexMaxEntry]
        stats := { lastRun := none, successCount := 0, failureCount := 0 } }
      5 0 (fun _ => true) (fun _ => "e")).2.attempted :=
  ((retryFailedHandler_bounds _ 5 0 _ _).2 cexMaxEntry (by decide)).2.1

end SpotifyLogger
